import Mathlib

/-!
Verification of the query-answering orchestration engine of the course-material
RAG chatbot, as a shallow embedding in Lean 4.

The repository ships only the test suite of the backend (`backend/tests/`) and
debug scripts; the implementation modules themselves (`vector_store.py`,
`search_tools.py`, `ai_generator.py`, `rag_system.py`, `session_manager.py`,
`models.py`) are not part of the sources provided.  The definitions below are
therefore modelled from the specification (`spec.md`), staying faithful to its
words, and are constrained by the expectations the shipped test suite encodes.
Embedding similarity (an external, non-deterministic service) is abstracted:
course-name resolution models "close enough" as substring containment, and
content ranking keeps insertion order with abstract distances.
-/

set_option autoImplicit false

namespace RagSpec

/-- A lesson of a course (data model §3 of the spec): positive lesson number,
title, optional link. -/
structure Lesson where
  lesson_number : Nat
  title : String
  lesson_link : Option String
  deriving Repr, DecidableEq

/-- A course (data model §3): title is the unique identifier in the catalog. -/
structure Course where
  title : String
  instructor : Option String
  course_link : Option String
  lessons : List Lesson
  deriving Repr, DecidableEq

/-- A content chunk (data model §3): foreign keys `course_title` and
`lesson_number` (the latter may be absent), a per-course `chunk_index`, and the
chunk text. -/
structure CourseChunk where
  course_title : String
  lesson_number : Option Nat
  chunk_index : Nat
  content : String
  deriving Repr, DecidableEq

/-- Per-document metadata carried by a search result (course title and
optional lesson number). -/
structure ChunkMeta where
  course_title : String
  lesson_number : Option Nat
  deriving Repr, DecidableEq

/-- The `SearchResults` record (data model §3): parallel ordered sequences of documents,
metadata and distances, plus an optional error string.  When `error` is set all
three sequences are empty. -/
structure SearchResults where
  documents : List String
  metadata : List ChunkMeta
  distances : List Nat
  error : Option String
  deriving Repr, DecidableEq

/-- The emptiness test: `is_empty()` ⇔ `documents` is empty (data model §3). -/
def SearchResults.is_empty (r : SearchResults) : Bool :=
  r.documents.isEmpty

/-- A cited source (data model §3): `{text, link}`. -/
structure Source where
  text : String
  link : Option String
  deriving Repr, DecidableEq

/-- Does the first character list start with the second? -/
def charsStartWith : List Char → List Char → Bool
  | _, [] => true
  | [], _ :: _ => false
  | a :: as, b :: bs => a = b && charsStartWith as bs

/-- Does the first character list contain the second as a contiguous run? -/
def charsContain : List Char → List Char → Bool
  | [], needle => needle.isEmpty
  | a :: as, needle => charsStartWith (a :: as) needle || charsContain as needle

/-- Substring containment on strings, used to model "close enough" matches of
the embedding-based course-name resolution. -/
def strContains (hay needle : String) : Bool :=
  charsContain hay.data needle.data

/-- Modelled from the spec: the Semantic Index of §4.1 (`vector_store.py` is
not among the provided sources).  It owns the two logical collections: the
course catalog (one record per `Course`) and the content collection (one record
per `CourseChunk`), together with the configured `max_results`. -/
structure VectorStore where
  catalog : List Course
  content : List CourseChunk
  max_results : Nat
  deriving Repr, DecidableEq

/-- A freshly initialized Semantic Index with the given `max_results`: both
collections empty. -/
def VectorStore.init (m : Nat) : VectorStore :=
  ⟨[], [], m⟩

/-- Modelled from the spec (§4.1): `add_course_metadata` upserts a catalog
record keyed by `course.title`. -/
def VectorStore.add_course_metadata (vs : VectorStore) (c : Course) : VectorStore :=
  { vs with catalog := vs.catalog.filter (fun d => d.title ≠ c.title) ++ [c] }

/-- Modelled from the spec (§4.1): `add_course_content` appends content
records; no-op on empty input. -/
def VectorStore.add_course_content (vs : VectorStore) (chunks : List CourseChunk) : VectorStore :=
  { vs with content := vs.content ++ chunks }

/-- Modelled from the spec (§4.1): read-only catalog introspection. -/
def VectorStore.get_existing_course_titles (vs : VectorStore) : List String :=
  vs.catalog.map (fun c => c.title)

/-- Modelled from the spec (§4.1): number of catalog records. -/
def VectorStore.get_course_count (vs : VectorStore) : Nat :=
  vs.catalog.length

/-- Modelled from the spec (§4.1): `_resolve_course_name` returns the exact
title when the input equals a known title; otherwise the nearest catalog title
that matches closely enough ("close enough" modelled as substring containment,
"nearest" as the first such catalog entry); `none` when no catalog entry
matches or the catalog is empty. -/
def VectorStore.resolve_course_name (vs : VectorStore) (name : String) : Option String :=
  if vs.catalog.any (fun c => c.title = name) then
    some name
  else
    ((vs.catalog.filter (fun c => strContains c.title name)).head?).map (fun c => c.title)

/-- Does a chunk pass the search filter built from an optional resolved course
title and an optional lesson number (§4.1 step 2)? -/
def chunkMatches (ct : Option String) (ln : Option Nat) (ch : CourseChunk) : Bool :=
  (match ct with
   | none => true
   | some t => ch.course_title = t)
  && (match ln with
      | none => true
      | some n => ch.lesson_number = some n)

/-- A `SearchResults` carrying only an error (all sequences empty). -/
def SearchResults.fromError (e : String) : SearchResults :=
  ⟨[], [], [], some e⟩

/-- Modelled from the spec (§4.1): `search`.  If `course_name` is given and
does not resolve, return the error `"No course found matching '<name>'"` with
empty lists.  Otherwise filter the content records by resolved course title and
lesson number and return at most `limit` (default `max_results`) of them.  The
nearest-neighbor ranking of the external embedding backend is abstracted as
the stored order with distance 0. -/
def VectorStore.search (vs : VectorStore) (query : String) (course_name : Option String)
    (lesson_number : Option Nat) (limit : Option Nat) : SearchResults :=
  let step : Except String (Option String) :=
    match course_name with
    | none => .ok none
    | some cn =>
      match vs.resolve_course_name cn with
      | none => .error ("No course found matching '" ++ cn ++ "'")
      | some t => .ok (some t)
  match step with
  | .error e => SearchResults.fromError e
  | .ok ct =>
    let hits := (vs.content.filter (chunkMatches ct lesson_number)).take (limit.getD vs.max_results)
    ⟨hits.map (fun ch => ch.content),
     hits.map (fun ch => ⟨ch.course_title, ch.lesson_number⟩),
     hits.map (fun _ => 0),
     none⟩

/-- Modelled from the spec (§4.1): `get_course_link` returns the catalog
course's link, `none` if not found (never raises). -/
def VectorStore.get_course_link (vs : VectorStore) (title : String) : Option String :=
  (vs.catalog.find? (fun c => c.title = title)).bind (fun c => c.course_link)

/-- Modelled from the spec (§4.1): `get_lesson_link` returns the link of the
given lesson of the given course, `none` if not found (never raises). -/
def VectorStore.get_lesson_link (vs : VectorStore) (title : String) (n : Nat) : Option String :=
  (vs.catalog.find? (fun c => c.title = title)).bind
    (fun c => (c.lessons.find? (fun l => l.lesson_number = n)).bind (fun l => l.lesson_link))

/-- Modelled from the spec (§4.1): `clear_all_data` deletes both collections. -/
def VectorStore.clear_all_data (vs : VectorStore) : VectorStore :=
  { vs with catalog := [], content := [] }

/-- Modelled from the spec (§4.2): the Content Search Tool
(`search_tools.py` is not among the provided sources).  It holds the Semantic
Index it delegates to and the `last_sources` recorded by its most recent
successful search. -/
structure CourseSearchTool where
  store : VectorStore
  last_sources : List Source
  deriving Repr, DecidableEq

/-- The labeled-block header of a formatted result: `[<course_title> - Lesson
<n>]`, or `[<course_title>]` if the lesson number is absent (§4.2). -/
def formatLabel (m : ChunkMeta) : String :=
  match m.lesson_number with
  | some n => "[" ++ m.course_title ++ " - Lesson " ++ toString n ++ "]"
  | none => "[" ++ m.course_title ++ "]"

/-- The `{text, link}` source entry recorded for one result (§4.2): `text =
"<course_title> - Lesson <n>"` and `link` resolved via `get_lesson_link`, or
the course title and course link when no lesson number is present. -/
def sourceOf (vs : VectorStore) (m : ChunkMeta) : Source :=
  match m.lesson_number with
  | some n => ⟨m.course_title ++ " - Lesson " ++ toString n, vs.get_lesson_link m.course_title n⟩
  | none => ⟨m.course_title, vs.get_course_link m.course_title⟩

/-- Join formatted result blocks with blank lines (§4.2). -/
def joinBlocks : List String → String
  | [] => ""
  | [s] => s
  | s :: rest => s ++ "\n\n" ++ joinBlocks rest

/-- The qualifying clause appended to `"No relevant content found"` when
filters were supplied, naming the course and/or lesson filter (§4.2). -/
def emptyMessage (course_name : Option String) (lesson_number : Option Nat) : String :=
  "No relevant content found"
    ++ (match course_name with
        | some c => " in course '" ++ c ++ "'"
        | none => "")
    ++ (match lesson_number with
        | some n => " in lesson " ++ toString n
        | none => "")

/-- Modelled from the spec (§4.2): `CourseSearchTool.execute`.  Delegates to
the Semantic Index `search`; propagates `results.error` verbatim; on empty
results returns `"No relevant content found"` plus the filter clause; otherwise
formats each (document, metadata) pair as a labeled block and, as a side
effect, replaces `last_sources` with one `{text, link}` entry per result. -/
def CourseSearchTool.execute (t : CourseSearchTool) (query : String)
    (course_name : Option String) (lesson_number : Option Nat) :
    String × CourseSearchTool :=
  let results := t.store.search query course_name lesson_number none
  match results.error with
  | some e => (e, t)
  | none =>
    if results.documents.isEmpty then
      (emptyMessage course_name lesson_number, t)
    else
      let blocks := (results.metadata.zip results.documents).map
        (fun p => formatLabel p.1 ++ "\n" ++ p.2)
      (joinBlocks blocks,
       { t with last_sources := results.metadata.map (sourceOf t.store) })

/-- Tool-call keyword arguments, modelled as an ordered association list of
argument name to value. -/
def Args : Type := List (String × String)

instance : DecidableEq Args := by
  unfold Args
  infer_instance

/-- Modelled from the spec (§4.3): the Tool Registry & Dispatcher
(`search_tools.py`'s `ToolManager` is not among the provided sources).  It maps
tool names to tool instances; the tool type is abstract (the shipped tests
register mock tools), so the registry is polymorphic in it. -/
structure ToolManager (τ : Type) where
  tools : List (String × τ)
  deriving Repr, DecidableEq

/-- Modelled from the spec (§4.3): registration keyed by name; a duplicate
name overwrites the previous registration. -/
def ToolManager.register_tool {τ : Type} (tm : ToolManager τ) (name : String) (t : τ) :
    ToolManager τ :=
  ⟨tm.tools.filter (fun p => p.1 ≠ name) ++ [(name, t)]⟩

/-- Modelled from the spec (§4.3): `execute_tool(name, **args)` looks up the
tool by name and runs its `execute` with the arguments forwarded unchanged,
threading the tool's updated state back into the registry; for an absent name
it returns the string `"Tool '<name>' not found"` (total, never raises). -/
def ToolManager.execute_tool {τ : Type} (exec : τ → Args → String × τ)
    (tm : ToolManager τ) (name : String) (args : Args) : String × ToolManager τ :=
  match tm.tools.find? (fun p => p.1 = name) with
  | some p =>
    let out := exec p.2 args
    (out.1, ⟨tm.tools.map (fun q => if q.1 = name then (q.1, out.2) else q)⟩)
  | none => ("Tool '" ++ name ++ "' not found", tm)

/-- Modelled from the spec (§4.3): `get_last_sources` concatenates each
registered tool's `last_sources`, read through the abstract accessor
`srcOf`. -/
def ToolManager.get_last_sources {τ : Type} (srcOf : τ → List Source)
    (tm : ToolManager τ) : List Source :=
  (tm.tools.map (fun p => srcOf p.2)).flatten

/-- Modelled from the spec (§4.3): `reset_sources` clears every tool's
`last_sources`, via the abstract clearing function `clr`. -/
def ToolManager.reset_sources {τ : Type} (clr : τ → τ) (tm : ToolManager τ) :
    ToolManager τ :=
  ⟨tm.tools.map (fun p => (p.1, clr p.2))⟩

/-- A tool call requested by the model (external interface §6): `(name,
arguments, call_id)`; field names follow the provider's content blocks. -/
structure ToolCall where
  name : String
  input : Args
  id : String
  deriving DecidableEq

/-- A model response (external interface §6): `{text, stop_reason,
tool_calls}`. -/
structure ModelResponse where
  text : String
  stop_reason : String
  tool_calls : List ToolCall
  deriving DecidableEq

/-- A provider: the sequence of outcomes of successive `generate` calls, each
either a response or a provider error (modelled as `Except`; a fallible call
past the end of the script is an error). -/
def Provider : Type := List (Except String ModelResponse)

/-- The observable outcome of one `generate_response` run: the final answer or
the propagated provider error, the tool registry after any dispatches, the
number of model calls made, the dispatched `(name, args)` pairs in order, and
the appended tool-result messages as `(tool_use_id, content)` pairs. -/
structure GenOutcome (τ : Type) where
  result : Except String String
  tm : ToolManager τ
  model_calls : Nat
  dispatches : List (String × Args)
  tool_result_msgs : List (String × String)

/-- Dispatch every requested tool call in order through the registry,
collecting the `(name, args)` dispatch log and one `(tool_use_id, content)`
tool-result entry per call (§4.4 phase 2). -/
def dispatchAll {τ : Type} (exec : τ → Args → String × τ) :
    ToolManager τ → List ToolCall →
    List (String × Args) × List (String × String) × ToolManager τ
  | tm, [] => ([], [], tm)
  | tm, tc :: rest =>
    let out := ToolManager.execute_tool exec tm tc.name tc.input
    let tail := dispatchAll exec out.2 rest
    ((tc.name, tc.input) :: tail.1, (tc.id, out.1) :: tail.2.1, tail.2.2)

/-- Modelled from the spec (§4.4): the Generation Orchestrator's
`generate_response` (`ai_generator.py` is not among the provided sources).
Phase 1 issues the initial model call; if its stop reason signals tool use,
each requested call is dispatched through the registry, one tool-result
message per call is appended, and exactly one second, final model call is
issued, whose text is the final answer; otherwise the initial text is the
answer.  A provider error on either call propagates as the `Except` error. -/
def generate_response {τ : Type} (exec : τ → Args → String × τ)
    (tm : ToolManager τ) (provider : Provider) : GenOutcome τ :=
  match provider.getD 0 (.error "no response") with
  | .error e => ⟨.error e, tm, 1, [], []⟩
  | .ok r1 =>
    if r1.stop_reason = "tool_use" then
      let d := dispatchAll exec tm r1.tool_calls
      match provider.getD 1 (.error "no response") with
      | .error e => ⟨.error e, d.2.2, 2, d.1, d.2.1⟩
      | .ok r2 => ⟨.ok r2.text, d.2.2, 2, d.1, d.2.1⟩
    else
      ⟨.ok r1.text, tm, 1, [], []⟩

/-- Modelled from the spec (§4.5): per-session conversation state — an ordered
log of `(user, assistant)` exchanges per session id, plus the counter backing
fresh session ids. -/
structure SessionStore where
  sessions : List (String × List (String × String))
  counter : Nat
  deriving DecidableEq

/-- Modelled from the spec (§4.5): render the stored exchanges as alternating
`User:`/`Assistant:` lines, capped to the most recent `cap` exchanges. -/
def renderHistory (cap : Nat) (log : List (String × String)) : String :=
  joinBlocks (((log.reverse.take cap).reverse).map
    (fun p => "User: " ++ p.1 ++ "\nAssistant: " ++ p.2))

/-- Modelled from the spec (§4.5): `get_conversation_history` returns the
rendered log, `none` for an unknown session. -/
def SessionStore.get_conversation_history (st : SessionStore) (cap : Nat) (sid : String) :
    Option String :=
  (st.sessions.find? (fun p => p.1 = sid)).map (fun p => renderHistory cap p.2)

/-- Modelled from the spec (§4.5): `add_exchange` appends the `(user,
assistant)` pair to the session's log, creating the log on first use. -/
def SessionStore.add_exchange (st : SessionStore) (sid : String)
    (userMsg assistantMsg : String) : SessionStore :=
  if st.sessions.any (fun p => p.1 = sid) then
    let upd := fun (p : String × List (String × String)) =>
      if p.1 = sid then (p.1, p.2 ++ [(userMsg, assistantMsg)]) else p
    { st with sessions := st.sessions.map upd }
  else
    { st with sessions := st.sessions ++ [(sid, [(userMsg, assistantMsg)])] }

/-- Modelled from the spec (§4.5): `create_session` yields a fresh opaque id,
distinct across calls. -/
def SessionStore.create_session (st : SessionStore) : String × SessionStore :=
  ("session_" ++ toString st.counter, { st with counter := st.counter + 1 })

/-- The Dispatcher interactions of one coordinator run that the
source-lifecycle invariant observes: reading the accumulated sources, and
resetting them. -/
inductive QEvent where
  | readSources
  | resetSources
  deriving DecidableEq, Repr

/-- The full per-query state the Query Coordinator threads: the tool registry
and the session store. -/
structure RAGState (τ : Type) where
  tm : ToolManager τ
  sessions : SessionStore
  deriving DecidableEq

/-- Modelled from the spec (§4.6): the Query Coordinator's `query`
(`rag_system.py` is not among the provided sources).  Creates a session if
none is given, fetches history, invokes the Orchestrator, then — on success —
reads the accumulated sources from the Dispatcher, resets them, appends the
exchange, and returns `(answer, sources)`.  A provider failure propagates
uncaught (the `Except` error), with no retry and no fallback answer.  The
returned trace records the Dispatcher source interactions in order. -/
def RAGSystem.query {τ : Type} (exec : τ → Args → String × τ)
    (srcOf : τ → List Source) (clr : τ → τ)
    (st : RAGState τ) (provider : Provider) (question : String)
    (session_id : Option String) :
    Except String (String × List Source) × RAGState τ × List QEvent :=
  let sidPair :=
    match session_id with
    | some s => (s, st.sessions)
    | none => st.sessions.create_session
  let _history := sidPair.2.get_conversation_history 2 sidPair.1
  let out := generate_response exec st.tm provider
  match out.result with
  | .error e => (.error e, ⟨out.tm, sidPair.2⟩, [])
  | .ok answer =>
    let sources := ToolManager.get_last_sources srcOf out.tm
    let tm2 := ToolManager.reset_sources clr out.tm
    let sessions2 := sidPair.2.add_exchange sidPair.1 question answer
    (.ok (answer, sources), ⟨tm2, sessions2⟩,
      [QEvent.readSources, QEvent.resetSources])

/-- The outcome of processing one course document (external interface §6):
either a parsed `Course` with its chunks, or a failure. -/
inductive ProcResult where
  | ok (c : Course) (chunks : List CourseChunk)
  | failed (msg : String)
  deriving DecidableEq

/-- Modelled from the spec (§6, §7.5): `add_course_document` processes one
file; a processing failure is caught at the coordinator boundary and reported
as `(none, 0)` with the index unchanged; otherwise course metadata and chunks
are added and the chunk count returned. -/
def RAGSystem.add_course_document (proc : String → ProcResult) (vs : VectorStore)
    (path : String) : (Option Course × Nat) × VectorStore :=
  match proc path with
  | .failed _ => ((none, 0), vs)
  | .ok c chunks =>
    ((some c, chunks.length), (vs.add_course_metadata c).add_course_content chunks)

/-- Modelled from the spec (§3 "created once during ingestion", §7.5) and the
shipped ingestion tests: process the files of a folder in order, skipping any
document whose course title is already present in the catalog (so existing
courses are neither duplicated nor reprocessed), counting the courses and
chunks actually added; failures are skipped and processing continues. -/
def addCourseFiles (proc : String → ProcResult) :
    VectorStore → List String → (Nat × Nat) × VectorStore
  | vs, [] => ((0, 0), vs)
  | vs, f :: rest =>
    match proc f with
    | .failed _ => addCourseFiles proc vs rest
    | .ok c chunks =>
      if c.title ∈ vs.get_existing_course_titles then
        addCourseFiles proc vs rest
      else
        let vs2 := (vs.add_course_metadata c).add_course_content chunks
        let tail := addCourseFiles proc vs2 rest
        ((tail.1.1 + 1, tail.1.2 + chunks.length), tail.2)

/-- Modelled from the spec (§4.6, §6, §7.5): `add_course_folder` over the
folder's document files; with `clear_existing` the index is wiped first. -/
def RAGSystem.add_course_folder (proc : String → ProcResult) (vs : VectorStore)
    (files : List String) (clear_existing : Bool) : (Nat × Nat) × VectorStore :=
  addCourseFiles proc (if clear_existing then vs.clear_all_data else vs) files

/-! Concrete data used to exercise the definitions, mirroring the fixtures of
the shipped test suite. -/

/-- Fixture lesson 1 of the demo course. -/
def demoLesson1 : Lesson :=
  ⟨1, "Python Basics", some "http://test.com/lesson1"⟩

/-- Fixture lesson 2 of the demo course. -/
def demoLesson2 : Lesson :=
  ⟨2, "Advanced Python", some "http://test.com/lesson2"⟩

/-- Fixture course, as in the data-integrity tests. -/
def demoCourse : Course :=
  ⟨"Python Course", some "John Doe", some "http://test.com/python-course",
   [demoLesson1, demoLesson2]⟩

/-- Fixture content chunks of the demo course. -/
def demoChunks : List CourseChunk :=
  [⟨"Python Course", some 1, 0, "Python is a programming language."⟩,
   ⟨"Python Course", some 1, 1, "Variables store data values."⟩,
   ⟨"Python Course", some 2, 2, "Functions are defined with def."⟩]

/-- Fixture Semantic Index holding the demo course and its chunks. -/
def demoStore : VectorStore :=
  ((VectorStore.init 5).add_course_metadata demoCourse).add_course_content demoChunks

/-- Fixture Semantic Index whose catalog has the demo course but whose content
collection is empty (a valid scope with no matching chunks). -/
def demoEmptyContentStore : VectorStore :=
  (VectorStore.init 5).add_course_metadata demoCourse

/-- A minimal concrete tool used to instantiate the polymorphic registry in
witnesses: a fixed reply and the sources recorded by executed searches. -/
structure WTool where
  reply : String
  recorded : List Source
  deriving Repr, DecidableEq

/-- Concrete tool `execute`: answer with the reply and record one source. -/
def wExec : WTool → Args → String × WTool :=
  fun t _ =>
    (t.reply, { t with recorded := t.recorded ++ [⟨"Python Basics - Lesson 1", some "http://course.com/python/lesson1"⟩] })

/-- Concrete accessor of a tool's `last_sources`. -/
def wSrcOf : WTool → List Source :=
  fun t => t.recorded

/-- Concrete clearing of a tool's `last_sources`. -/
def wClr : WTool → WTool :=
  fun t => { t with recorded := [] }

/-- A registry holding one concrete search tool, as the coordinator registers
it. -/
def wTM : ToolManager WTool :=
  ToolManager.register_tool ⟨[]⟩ "search_course_content" ⟨"Tool execution result", []⟩

/-- A model response requesting one `search_course_content` tool call. -/
def wToolUseResponse : ModelResponse :=
  ⟨"", "tool_use", [⟨"search_course_content", [("query", "Python basics")], "tool_123"⟩]⟩

/-- A final model response carrying the answer text. -/
def wFinalResponse : ModelResponse :=
  ⟨"Final response with tool results", "end_turn", []⟩

/-- A direct model response that requests no tools. -/
def wDirectResponse : ModelResponse :=
  ⟨"Direct answer without tool use", "end_turn", []⟩

/-- A provider script: one tool-use response, then the final response. -/
def wProvider : Provider :=
  [Except.ok wToolUseResponse, Except.ok wFinalResponse]

/-- The coordinator state before the witness query: the one-tool registry and
an empty session store. -/
def wState : RAGState WTool :=
  ⟨wTM, ⟨[], 0⟩⟩

/-- The source recorded by the concrete tool's execution. -/
def wSource : Source :=
  ⟨"Python Basics - Lesson 1", some "http://course.com/python/lesson1"⟩

/-- The coordinator state after the witness query: the tool's sources cleared
and the exchange appended to a fresh session. -/
def wPostState : RAGState WTool :=
  ⟨⟨[("search_course_content", ⟨"Tool execution result", []⟩)]⟩,
   ⟨[("session_0", [("Tell me about Python", "Final response with tool results")])], 1⟩⟩

/-- A document processor fixture: one known file parses to the demo course,
anything else fails. -/
def wProc : String → ProcResult :=
  fun f =>
    if f = "existing_course.txt" then ProcResult.ok demoCourse demoChunks
    else ProcResult.failed "unreadable"

/-- The metadata and distances sequences of any `search` result are as long as
its documents sequence (the `SearchResults` parallel-sequence invariant). -/
theorem search_parallel_lengths (vs : VectorStore) (q : String)
    (cn : Option String) (ln : Option Nat) (lim : Option Nat) :
    (vs.search q cn ln lim).metadata.length = (vs.search q cn ln lim).documents.length ∧
    (vs.search q cn ln lim).distances.length = (vs.search q cn ln lim).documents.length := by
  rcases cn with _ | c
  · simp [VectorStore.search]
  · rcases h : vs.resolve_course_name c with _ | t
    · simp [VectorStore.search, h, SearchResults.fromError]
    · simp [VectorStore.search, h]

/-- C2: `search` with an unresolvable course name returns the `SearchResults`
with `error = "No course found matching '<course_name>'"` and empty documents,
metadata and distances, while `search` with a resolvable course whose filters
match zero chunks returns empty lists with `error = none`, so callers can
distinguish the two outcomes by the `error` field. -/
theorem search_error_vs_empty_distinguishable (vs : VectorStore)
    (q₁ q₂ cn₁ cn₂ t : String) (ln : Option Nat) (lim : Option Nat)
    (h₁ : vs.resolve_course_name cn₁ = none)
    (h₂ : vs.resolve_course_name cn₂ = some t)
    (h₃ : vs.content.filter (chunkMatches (some t) ln) = []) :
    vs.search q₁ (some cn₁) ln lim =
      ⟨[], [], [], some ("No course found matching '" ++ cn₁ ++ "'")⟩ ∧
    vs.search q₂ (some cn₂) ln lim = ⟨[], [], [], none⟩ := by
  constructor
  · simp [VectorStore.search, h₁, SearchResults.fromError]
  · simp [VectorStore.search, h₂, h₃]

/-- C2 witness: on the demo store, "Nonexistent Course" resolves to nothing
and yields the error result, while "Python Course" with lesson filter 9
resolves but matches no chunk and yields the error-free empty result. -/
theorem search_error_vs_empty_distinguishable_witness :
    demoStore.search "anything" (some "Nonexistent Course") (some 9) none =
      ⟨[], [], [], some "No course found matching 'Nonexistent Course'"⟩ ∧
    demoStore.search "variables" (some "Python Course") (some 9) none =
      ⟨[], [], [], none⟩ := by
  have h := search_error_vs_empty_distinguishable demoStore "anything" "variables"
    "Nonexistent Course" "Python Course" "Python Course" (some 9) none
    (by decide) (by decide) (by decide)
  exact h

/-- C8: course-name resolution is idempotent on catalog titles — an exact
catalog title resolves to itself; an input that is not an exact title but
matches a unique catalog title resolves to that title; an input matching no
catalog entry resolves to `none`; and on an empty catalog every input resolves
to `none`. -/
theorem resolve_course_name_idempotent (vs ve : VectorStore) (c cu : Course)
    (p₁ p₂ p₃ : String)
    (hc : c ∈ vs.catalog)
    (h₁a : vs.catalog.any (fun d => d.title = p₁) = false)
    (h₁b : vs.catalog.filter (fun d => strContains d.title p₁) = [cu])
    (h₂a : vs.catalog.any (fun d => d.title = p₂) = false)
    (h₂b : vs.catalog.filter (fun d => strContains d.title p₂) = [])
    (he : ve.catalog = []) :
    vs.resolve_course_name c.title = some c.title ∧
    vs.resolve_course_name p₁ = some cu.title ∧
    vs.resolve_course_name p₂ = none ∧
    ve.resolve_course_name p₃ = none := by
  refine ⟨?_, ?_, ?_, ?_⟩
  · have hany : vs.catalog.any (fun d => d.title = c.title) = true :=
      List.any_eq_true.mpr ⟨c, hc, by simp⟩
    simp [VectorStore.resolve_course_name, hany]
  · simp [VectorStore.resolve_course_name, h₁a, h₁b]
  · simp [VectorStore.resolve_course_name, h₂a, h₂b]
  · simp [VectorStore.resolve_course_name, he]

/-- C8 witness: on the demo store, the exact title "Python Course" resolves to
itself, the strict prefix "Python" resolves to "Python Course", "Nonexistent"
resolves to `none`, and the empty fresh store resolves nothing. -/
theorem resolve_course_name_idempotent_witness :
    demoStore.resolve_course_name "Python Course" = some "Python Course" ∧
    demoStore.resolve_course_name "Python" = some "Python Course" ∧
    demoStore.resolve_course_name "Nonexistent" = none ∧
    (VectorStore.init 5).resolve_course_name "Anything" = none := by
  have h := resolve_course_name_idempotent demoStore (VectorStore.init 5)
    demoCourse demoCourse "Python" "Nonexistent" "Anything"
    (by decide) (by decide) (by decide) (by decide) (by decide) (by decide)
  exact h

/-- C9: adding a course and its chunks to a fresh Semantic Index makes the
reads reflect exactly that data (count 1, the title listed, the chunks
returned by search, both unfiltered and filtered by the course title), and
`clear_all_data` restores the freshly-initialized state with zero/empty
reads. -/
theorem vector_store_round_trip (m : Nat) (c : Course) (chunks : List CourseChunk)
    (q q' : String) (s₁ : VectorStore)
    (hs : s₁ = ((VectorStore.init m).add_course_metadata c).add_course_content chunks)
    (hm : chunks.length ≤ m)
    (hall : ∀ ch ∈ chunks, ch.course_title = c.title) :
    s₁.get_course_count = 1 ∧
    s₁.get_existing_course_titles = [c.title] ∧
    (s₁.search q none none none).documents = chunks.map (fun ch => ch.content) ∧
    (s₁.search q' (some c.title) none none).documents = chunks.map (fun ch => ch.content) ∧
    s₁.clear_all_data = VectorStore.init m ∧
    s₁.clear_all_data.get_course_count = 0 ∧
    s₁.clear_all_data.get_existing_course_titles = [] ∧
    (s₁.clear_all_data.search q none none none).documents = [] := by
  subst hs
  have hcat : (((VectorStore.init m).add_course_metadata c).add_course_content chunks).catalog
      = [c] := by
    simp [VectorStore.init, VectorStore.add_course_metadata, VectorStore.add_course_content]
  have hcont : (((VectorStore.init m).add_course_metadata c).add_course_content chunks).content
      = chunks := by
    simp [VectorStore.init, VectorStore.add_course_metadata, VectorStore.add_course_content]
  have hmax : (((VectorStore.init m).add_course_metadata c).add_course_content chunks).max_results
      = m := by
    simp [VectorStore.init, VectorStore.add_course_metadata, VectorStore.add_course_content]
  have hfilterAll : chunks.filter (chunkMatches none none) = chunks :=
    List.filter_eq_self.mpr (fun a _ => by simp [chunkMatches])
  have hfilterC : chunks.filter (chunkMatches (some c.title) none) = chunks :=
    List.filter_eq_self.mpr (fun a ha => by simp [chunkMatches, hall a ha])
  have htake : chunks.take m = chunks := List.take_of_length_le hm
  refine ⟨?_, ?_, ?_, ?_, ?_, ?_, ?_, ?_⟩
  · simp [VectorStore.get_course_count, hcat]
  · simp [VectorStore.get_existing_course_titles, hcat]
  · simp [VectorStore.search, hcont, hmax, hfilterAll, htake]
  · have hres : (((VectorStore.init m).add_course_metadata c).add_course_content
        chunks).resolve_course_name c.title = some c.title := by
      simp [VectorStore.resolve_course_name, hcat]
    simp [VectorStore.search, hres, hcont, hmax, hfilterC, htake]
  · simp [VectorStore.clear_all_data, VectorStore.init, VectorStore.add_course_metadata,
      VectorStore.add_course_content]
  · simp [VectorStore.clear_all_data, VectorStore.get_course_count]
  · simp [VectorStore.clear_all_data, VectorStore.get_existing_course_titles]
  · simp [VectorStore.clear_all_data, VectorStore.search]

/-- C9 witness: the demo course with its three chunks round-trips through a
fresh index with `max_results = 5`, and clearing restores the fresh state. -/
theorem vector_store_round_trip_witness :
    demoStore.get_course_count = 1 ∧
    demoStore.get_existing_course_titles = ["Python Course"] ∧
    (demoStore.search "q" none none none).documents =
      ["Python is a programming language.", "Variables store data values.",
       "Functions are defined with def."] ∧
    (demoStore.search "q" (some "Python Course") none none).documents =
      ["Python is a programming language.", "Variables store data values.",
       "Functions are defined with def."] ∧
    demoStore.clear_all_data = VectorStore.init 5 := by
  have h := vector_store_round_trip 5 demoCourse demoChunks "q" "q" demoStore
    rfl (by decide) (by decide)
  exact ⟨h.1, h.2.1, h.2.2.1, h.2.2.2.1, h.2.2.2.2.1⟩

/-- C3: `execute_tool` on a registered name invokes exactly that tool's
`execute` with the keyword arguments forwarded unchanged and returns its
result; on an unregistered name it returns the string
`"Tool '<name>' not found"` with the registry untouched (the dispatcher is a
total function — it never raises). -/
theorem execute_tool_routes_or_not_found {τ : Type} (exec : τ → Args → String × τ)
    (tm : ToolManager τ) (name₁ name₂ : String) (t : τ) (args₁ args₂ : Args)
    (h₁ : tm.tools.find? (fun p => p.1 = name₁) = some (name₁, t))
    (h₂ : ∀ p ∈ tm.tools, p.1 ≠ name₂) :
    (ToolManager.execute_tool exec tm name₁ args₁).1 = (exec t args₁).1 ∧
    ToolManager.execute_tool exec tm name₂ args₂ =
      ("Tool '" ++ name₂ ++ "' not found", tm) := by
  constructor
  · simp [ToolManager.execute_tool, h₁]
  · have hnone : tm.tools.find? (fun p => p.1 = name₂) = none :=
      List.find?_eq_none.mpr (fun p hp => by simp [h₂ p hp])
    simp [ToolManager.execute_tool, hnone]

/-- C3 witness: on a registry holding only `search_course_content`, dispatch
by that name runs the registered tool on the given arguments, and dispatch by
`nonexistent_tool` returns the not-found string. -/
theorem execute_tool_routes_or_not_found_witness :
    (ToolManager.execute_tool wExec wTM "search_course_content"
      [("query", "test")]).1 = "Tool execution result" ∧
    ToolManager.execute_tool wExec wTM "nonexistent_tool" [] =
      ("Tool 'nonexistent_tool' not found", wTM) := by
  have h := execute_tool_routes_or_not_found wExec wTM "search_course_content"
    "nonexistent_tool" ⟨"Tool execution result", []⟩ [("query", "test")] []
    (by decide) (by decide)
  exact h

/-- C6: the Content Search Tool propagates a search error string verbatim,
and renders empty error-free results, for every combination of supplied
filters, as `"No relevant content found"` extended with a clause naming the
course filter exactly when one was supplied and a clause naming the lesson
filter exactly when one was supplied. -/
theorem course_search_tool_error_and_empty_messages (t : CourseSearchTool)
    (q₁ q₂ : String) (cn₁ cn₂ : Option String) (ln₁ ln₂ : Option Nat) (e : String)
    (h₁ : (t.store.search q₁ cn₁ ln₁ none).error = some e)
    (h₂ : (t.store.search q₂ cn₂ ln₂ none).error = none)
    (h₃ : (t.store.search q₂ cn₂ ln₂ none).documents = []) :
    (t.execute q₁ cn₁ ln₁).1 = e ∧
    (t.execute q₂ cn₂ ln₂).1 =
      "No relevant content found"
        ++ (match cn₂ with
            | some c => " in course '" ++ c ++ "'"
            | none => "")
        ++ (match ln₂ with
            | some n => " in lesson " ++ toString n
            | none => "") := by
  constructor
  · simp [CourseSearchTool.execute, h₁]
  · rcases cn₂ with _ | c <;> rcases ln₂ with _ | n <;>
      simp [CourseSearchTool.execute, h₂, h₃, emptyMessage]

/-- C6 witness: against the demo index with empty content, an unresolvable
course yields the propagated resolution error, and resolvable-but-empty
scopes yield the "No relevant content found" message with both filter
clauses, the course clause alone, the lesson clause alone, and no clause. -/
theorem course_search_tool_error_and_empty_messages_witness :
    (CourseSearchTool.execute ⟨demoEmptyContentStore, []⟩ "x" (some "Zzz") none).1 =
      "No course found matching 'Zzz'" ∧
    (CourseSearchTool.execute ⟨demoEmptyContentStore, []⟩ "test"
        (some "Python Course") (some 5)).1 =
      "No relevant content found in course 'Python Course' in lesson 5" ∧
    (CourseSearchTool.execute ⟨demoEmptyContentStore, []⟩ "test"
        (some "Python Course") none).1 =
      "No relevant content found in course 'Python Course'" ∧
    (CourseSearchTool.execute ⟨demoEmptyContentStore, []⟩ "test" none (some 3)).1 =
      "No relevant content found in lesson 3" ∧
    (CourseSearchTool.execute ⟨demoEmptyContentStore, []⟩ "topic" none none).1 =
      "No relevant content found" := by
  have hboth := course_search_tool_error_and_empty_messages ⟨demoEmptyContentStore, []⟩
    "x" "test" (some "Zzz") (some "Python Course") none (some 5)
    "No course found matching 'Zzz'" (by decide) (by decide) (by decide)
  have hcourse := course_search_tool_error_and_empty_messages ⟨demoEmptyContentStore, []⟩
    "x" "test" (some "Zzz") (some "Python Course") none none
    "No course found matching 'Zzz'" (by decide) (by decide) (by decide)
  have hlesson := course_search_tool_error_and_empty_messages ⟨demoEmptyContentStore, []⟩
    "x" "test" (some "Zzz") none none (some 3)
    "No course found matching 'Zzz'" (by decide) (by decide) (by decide)
  have hnone := course_search_tool_error_and_empty_messages ⟨demoEmptyContentStore, []⟩
    "x" "topic" (some "Zzz") none none none
    "No course found matching 'Zzz'" (by decide) (by decide) (by decide)
  exact ⟨hboth.1, hboth.2, hcourse.2, hlesson.2, hnone.2⟩

/-- C7: a successful Content Search Tool execution replaces `last_sources`
with one entry per result in order — `text = "<course_title> - Lesson <n>"`
from that result's metadata, `link` resolved via `get_lesson_link` (course
link when no lesson number) — and the list is exactly as long as the returned
documents. -/
theorem course_search_tool_records_sources (t : CourseSearchTool) (q : String)
    (cn : Option String) (ln : Option Nat)
    (herr : (t.store.search q cn ln none).error = none)
    (hne : (t.store.search q cn ln none).documents.isEmpty = false) :
    (t.execute q cn ln).2.last_sources =
      (t.store.search q cn ln none).metadata.map (fun m =>
        match m.lesson_number with
        | some n => ⟨m.course_title ++ " - Lesson " ++ toString n,
                     t.store.get_lesson_link m.course_title n⟩
        | none => ⟨m.course_title, t.store.get_course_link m.course_title⟩) ∧
    (t.execute q cn ln).2.last_sources.length =
      (t.store.search q cn ln none).documents.length := by
  have hlen := (search_parallel_lengths t.store q cn ln none).1
  constructor
  · simp [CourseSearchTool.execute, herr, hne, sourceOf]
  · simp [CourseSearchTool.execute, herr, hne, hlen]

/-- C7 witness: a search over the demo store filtered to lesson 1 returns two
documents and records exactly two sources, each labeled with the course and
lesson and carrying the lesson link. -/
theorem course_search_tool_records_sources_witness :
    (CourseSearchTool.execute ⟨demoStore, []⟩ "variables" none (some 1)).2.last_sources =
      [⟨"Python Course - Lesson 1", some "http://test.com/lesson1"⟩,
       ⟨"Python Course - Lesson 1", some "http://test.com/lesson1"⟩] ∧
    (CourseSearchTool.execute ⟨demoStore, []⟩ "variables" none (some 1)).2.last_sources.length =
      (demoStore.search "variables" none (some 1) none).documents.length := by
  have h := course_search_tool_records_sources ⟨demoStore, []⟩ "variables" none (some 1)
    (by decide) (by decide)
  exact ⟨by rw [h.1]; decide, h.2⟩

/-- Dispatching a list of tool calls logs exactly one `(name, args)` dispatch
per call in order, and produces one tool-result entry per call tagged with
that call's identifier, whatever the registry state. -/
theorem dispatchAll_log {τ : Type} (exec : τ → Args → String × τ)
    (calls : List ToolCall) : ∀ tm : ToolManager τ,
    (dispatchAll exec tm calls).1 = calls.map (fun tc => (tc.name, tc.input)) ∧
    (dispatchAll exec tm calls).2.1.map Prod.fst = calls.map (fun tc => tc.id) := by
  induction calls with
  | nil => intro tm; simp [dispatchAll]
  | cons tc rest ih =>
    intro tm
    have h := ih (ToolManager.execute_tool exec tm tc.name tc.input).2
    simp [dispatchAll, h.1, h.2]

/-- C1: when the initial model response signals tool use, `generate_response`
dispatches each requested tool call exactly once through the tool manager with
its arguments forwarded unchanged, appends one tool-result message per call
tagged with that call's identifier, makes exactly one second model call (two
in total), and returns the second call's text verbatim as the final answer. -/
theorem generate_response_tool_round {τ : Type} (exec : τ → Args → String × τ)
    (tm : ToolManager τ) (r₁ r₂ : ModelResponse) (rest : Provider)
    (h : r₁.stop_reason = "tool_use") :
    (generate_response exec tm (Except.ok r₁ :: Except.ok r₂ :: rest)).dispatches =
      r₁.tool_calls.map (fun tc => (tc.name, tc.input)) ∧
    (generate_response exec tm (Except.ok r₁ :: Except.ok r₂ :: rest)).tool_result_msgs.map
      Prod.fst = r₁.tool_calls.map (fun tc => tc.id) ∧
    (generate_response exec tm (Except.ok r₁ :: Except.ok r₂ :: rest)).model_calls = 2 ∧
    (generate_response exec tm (Except.ok r₁ :: Except.ok r₂ :: rest)).result =
      Except.ok r₂.text := by
  have hd := dispatchAll_log exec r₁.tool_calls tm
  refine ⟨?_, ?_, ?_, ?_⟩ <;>
    simp [generate_response, h, hd.1, hd.2]

/-- C1 witness: a tool-use response with one `search_course_content` call,
followed by a final response, yields exactly that dispatch, a tool-result
tagged `tool_123`, two model calls, and the final text verbatim. -/
theorem generate_response_tool_round_witness :
    (generate_response wExec wTM [Except.ok wToolUseResponse, Except.ok wFinalResponse]).dispatches =
      [("search_course_content", [("query", "Python basics")])] ∧
    (generate_response wExec wTM
        [Except.ok wToolUseResponse, Except.ok wFinalResponse]).tool_result_msgs.map Prod.fst =
      ["tool_123"] ∧
    (generate_response wExec wTM
        [Except.ok wToolUseResponse, Except.ok wFinalResponse]).model_calls = 2 ∧
    (generate_response wExec wTM [Except.ok wToolUseResponse, Except.ok wFinalResponse]).result =
      Except.ok "Final response with tool results" := by
  have h := generate_response_tool_round wExec wTM wToolUseResponse wFinalResponse []
    (by decide)
  exact h

/-- C5: a provider error on either model call propagates uncaught out of the
Query Coordinator's `query` — the same error is returned, with no internal
retry and no fallback answer. -/
theorem query_propagates_provider_error {τ : Type} (exec : τ → Args → String × τ)
    (srcOf : τ → List Source) (clr : τ → τ) (st : RAGState τ)
    (q : String) (sid : Option String) (e : String) (rest rest₂ : Provider)
    (r₁ : ModelResponse) (h : r₁.stop_reason = "tool_use") :
    (RAGSystem.query exec srcOf clr st (Except.error e :: rest) q sid).1 =
      Except.error e ∧
    (RAGSystem.query exec srcOf clr st (Except.ok r₁ :: Except.error e :: rest₂) q sid).1 =
      Except.error e := by
  constructor
  · rcases sid with _ | s <;> simp [RAGSystem.query, generate_response]
  · rcases sid with _ | s <;> simp [RAGSystem.query, generate_response, h]

/-- C5 witness: with the demo registry, a failing first call and a failing
second call (after a tool-use response) both surface the provider error
"AI service unavailable" from `query`. -/
theorem query_propagates_provider_error_witness :
    (RAGSystem.query wExec wSrcOf wClr ⟨wTM, ⟨[], 0⟩⟩
        [Except.error "AI service unavailable"] "Test query" none).1 =
      Except.error "AI service unavailable" ∧
    (RAGSystem.query wExec wSrcOf wClr ⟨wTM, ⟨[], 0⟩⟩
        [Except.ok wToolUseResponse, Except.error "AI service unavailable"]
        "Test query" none).1 =
      Except.error "AI service unavailable" := by
  have h := query_propagates_provider_error wExec wSrcOf wClr ⟨wTM, ⟨[], 0⟩⟩
    "Test query" none "AI service unavailable" [] [] wToolUseResponse (by decide)
  exact h

/-- Clearing every tool of a registry leaves every per-tool source read empty,
when the clearing function empties the accessor's view. -/
theorem map_src_of_cleared {τ : Type} (srcOf : τ → List Source) (clr : τ → τ)
    (hclr : ∀ t, srcOf (clr t) = []) (l : List (String × τ)) :
    (l.map (fun p => (p.1, clr p.2))).map (fun p => srcOf p.2) =
      List.replicate l.length [] := by
  induction l with
  | nil => simp
  | cons a as ih => simp [ih, hclr, List.replicate_succ]

/-- Flattening any number of empty source lists yields the empty list. -/
theorem flatten_replicate_nil (n : Nat) :
    (List.replicate n ([] : List Source)).flatten = [] := by
  induction n with
  | zero => simp
  | succ k ih => simp [List.replicate_succ, ih]

/-- C4: a completed coordinator `query` reads the Dispatcher's accumulated
sources and then resets them exactly once (in that order), the returned
sources are exactly the sources accumulated at the Dispatcher by this query's
generation pass, every tool's `last_sources` is empty afterwards, and a
subsequent query whose model response requests no tools returns an empty
sources list. -/
theorem query_reads_then_resets_sources_once {τ : Type} (exec : τ → Args → String × τ)
    (srcOf : τ → List Source) (clr : τ → τ)
    (hclr : ∀ t, srcOf (clr t) = [])
    (st : RAGState τ) (provider : Provider) (q : String) (sid : Option String)
    (ans : String) (srcs : List Source) (st' : RAGState τ) (tr : List QEvent)
    (h : RAGSystem.query exec srcOf clr st provider q sid =
      (Except.ok (ans, srcs), st', tr))
    (r : ModelResponse) (provider₂ : Provider) (q₂ : String) (sid₂ : Option String)
    (hr : r.stop_reason ≠ "tool_use") :
    tr = [QEvent.readSources, QEvent.resetSources] ∧
    srcs = ToolManager.get_last_sources srcOf (generate_response exec st.tm provider).tm ∧
    st'.tm.tools.map (fun p => srcOf p.2) = List.replicate st'.tm.tools.length [] ∧
    (RAGSystem.query exec srcOf clr st' (Except.ok r :: provider₂) q₂ sid₂).1 =
      Except.ok (r.text, []) := by
  rcases hres : (generate_response exec st.tm provider).result with e | a
  · exfalso
    simp [RAGSystem.query, hres] at h
  · have h1 : (RAGSystem.query exec srcOf clr st provider q sid).1 =
        Except.ok (ans, srcs) := by rw [h]
    have h2 : (RAGSystem.query exec srcOf clr st provider q sid).2.1 = st' := by rw [h]
    have h3 : (RAGSystem.query exec srcOf clr st provider q sid).2.2 = tr := by rw [h]
    have e1 : (RAGSystem.query exec srcOf clr st provider q sid).1 =
        Except.ok (a, ToolManager.get_last_sources srcOf
          (generate_response exec st.tm provider).tm) := by
      simp [RAGSystem.query, hres]
    have e2 : (RAGSystem.query exec srcOf clr st provider q sid).2.1.tm =
        ToolManager.reset_sources clr (generate_response exec st.tm provider).tm := by
      simp [RAGSystem.query, hres]
    have e3 : (RAGSystem.query exec srcOf clr st provider q sid).2.2 =
        [QEvent.readSources, QEvent.resetSources] := by
      simp [RAGSystem.query, hres]
    have hsrcs : srcs = ToolManager.get_last_sources srcOf
        (generate_response exec st.tm provider).tm := by
      have hh := h1.symm.trans e1
      simp only [Except.ok.injEq, Prod.mk.injEq] at hh
      exact hh.2
    have htm : st'.tm =
        ToolManager.reset_sources clr (generate_response exec st.tm provider).tm :=
      (congrArg RAGState.tm h2).symm.trans e2
    have hmap : st'.tm.tools.map (fun p => srcOf p.2) =
        List.replicate st'.tm.tools.length [] := by
      rw [htm]
      simp only [ToolManager.reset_sources, List.length_map]
      exact map_src_of_cleared srcOf clr hclr _
    have hempty : ToolManager.get_last_sources srcOf st'.tm = [] := by
      unfold ToolManager.get_last_sources
      rw [hmap]
      exact flatten_replicate_nil _
    have hgen : generate_response exec st'.tm (Except.ok r :: provider₂) =
        ⟨Except.ok r.text, st'.tm, 1, [], []⟩ := by
      simp [generate_response, hr]
    refine ⟨h3.symm.trans e3, hsrcs, hmap, ?_⟩
    simp [RAGSystem.query, hgen, hempty]

/-- C4 witness: the concrete coordinator run over the one-tool registry reads
the one recorded source, resets it, leaves the tool empty, and a follow-up
query answered directly by the model returns no sources. -/
theorem query_reads_then_resets_sources_once_witness :
    [QEvent.readSources, QEvent.resetSources] =
      [QEvent.readSources, QEvent.resetSources] ∧
    [wSource] = ToolManager.get_last_sources wSrcOf
      (generate_response wExec wState.tm wProvider).tm ∧
    wPostState.tm.tools.map (fun p => wSrcOf p.2) =
      List.replicate wPostState.tm.tools.length [] ∧
    (RAGSystem.query wExec wSrcOf wClr wPostState (Except.ok wDirectResponse :: [])
        "What about Python specifically?" none).1 =
      Except.ok ("Direct answer without tool use", []) := by
  have h := query_reads_then_resets_sources_once wExec wSrcOf wClr
    (fun t => rfl) wState wProvider "Tell me about Python" none
    "Final response with tool results" [wSource] wPostState
    [QEvent.readSources, QEvent.resetSources] rfl
    wDirectResponse [] "What about Python specifically?" none (by decide)
  exact h

/-- Skipping every already-present course leaves the index untouched and the
counters at zero. -/
theorem addCourseFiles_all_existing (proc : String → ProcResult) (vs : VectorStore) :
    ∀ files : List String,
    (∀ f ∈ files, ∃ c chunks, proc f = ProcResult.ok c chunks ∧
      c.title ∈ vs.get_existing_course_titles) →
    addCourseFiles proc vs files = ((0, 0), vs) := by
  intro files
  induction files with
  | nil => intro _; simp [addCourseFiles]
  | cons f rest ih =>
    intro hall
    obtain ⟨c, chunks, hok, hmem⟩ := hall f (by simp)
    have htail := ih (fun g hg => hall g (List.mem_cons_of_mem f hg))
    simp only [addCourseFiles, hok]
    rw [if_pos hmem]
    exact htail

/-- C10: re-ingestion is idempotent — `add_course_folder` without
`clear_existing`, on a folder whose documents all parse to courses whose
titles are already in the catalog, reports zero courses and zero chunks added
and leaves the Semantic Index unchanged. -/
theorem add_course_folder_skips_existing (proc : String → ProcResult)
    (vs : VectorStore) (files : List String)
    (h : ∀ f ∈ files, ∃ c chunks, proc f = ProcResult.ok c chunks ∧
      c.title ∈ vs.get_existing_course_titles) :
    RAGSystem.add_course_folder proc vs files false = ((0, 0), vs) := by
  unfold RAGSystem.add_course_folder
  simp only [Bool.false_eq_true, if_false]
  exact addCourseFiles_all_existing proc vs files h

/-- C10 witness: a folder with one document that parses to the already-present
demo course adds nothing and leaves the demo store unchanged. -/
theorem add_course_folder_skips_existing_witness :
    RAGSystem.add_course_folder wProc demoStore ["existing_course.txt"] false =
      ((0, 0), demoStore) := by
  refine add_course_folder_skips_existing wProc demoStore ["existing_course.txt"] ?_
  intro f hf
  have hf' : f = "existing_course.txt" := by
    simpa using hf
  subst hf'
  exact ⟨demoCourse, demoChunks, rfl, by decide⟩

end RagSpec
